import Mathlib

/-!
Verification development for the CANN dispatch layer of ggml
(`ggml/src/ggml-cann/aclnn_ops.h`): the broadcasting-aware binary/unary
operator dispatch framework, the two-phase workspace invocation protocol
(macro `GGML_CANN_CALL_ACLNN_OP`), and the generic dispatch templates
`ggml_cann_unary_op` / `ggml_cann_binary_op`.

Machinery that the header only declares (the bodies live elsewhere in the
repository) is modelled from the specification where noted; everything
else is translated line by line from the header.
-/

namespace CannDispatch

/-- ACL status code convention: a designated success value (0) means no
error; any other value is an error status. -/
def ACL_SUCCESS : Int := 0

/-! ## Two-phase invocation protocol: `GGML_CANN_CALL_ACLNN_OP`

The macro (aclnn_ops.h, lines 619-632) is embedded as a trace-producing
function.  The device-facing calls themselves (the per-operator
`aclnnXxxGetWorkspaceSize` and `aclnnXxx` entry points) are external
vendor code; their observable outcome is abstracted as an
`AclnnOpBehavior`: the status and workspace size reported by the query
phase and the status returned by the execute phase. -/

/-- Outcome of the external vendor calls for one operator invocation:
what the workspace-size query reports and what the execute call returns. -/
structure AclnnOpBehavior where
  queryStatus : Int
  queryWorkspaceSize : Nat
  execStatus : Int
deriving DecidableEq, Repr

/-- Observable events of one expansion of `GGML_CANN_CALL_ACLNN_OP`. -/
inductive AclEvent where
  /-- the query-phase call `aclnnXxxGetWorkspaceSize(...)` returned
  `status` and reported `size` bytes of required workspace -/
  | query (opName : String) (status : Int) (size : Nat)
  /-- `ggml_cann_pool_alloc workspace_allocator(ctx.pool(), size)`:
  acquisition of exactly `size` bytes from the pooled allocator -/
  | poolAcquire (size : Nat)
  /-- destructor of `workspace_allocator`: the workspace is released
  back to the pool (host-side bookkeeping) -/
  | poolRelease
  /-- the execute-phase call `aclnnXxx(workspaceAddr, workspaceSize,
  executor, ctx.stream())` was submitted; `wsNull` records whether the
  workspace pointer was still the initial `nullptr` -/
  | submit (opName : String) (wsNull : Bool) (wsSize : Nat) (status : Int)
  /-- `ACL_CHECK` observed a non-success status: hard failure carrying
  the failing call name and the status code, and execution halts -/
  | fatalErr (opName : String) (status : Int)
deriving DecidableEq, Repr

instance : Inhabited AclEvent := ⟨AclEvent.query "" 0 0⟩

/-- Embedding of `GGML_CANN_CALL_ACLNN_OP(OP_NAME, ...)`
(aclnn_ops.h lines 619-632), line by line:

* `workspaceSize = 0; workspaceAddr = nullptr;`
* `ACL_CHECK(aclnn##OP_NAME##GetWorkspaceSize(..., &workspaceSize, &executor))`
* `if (workspaceSize > 0) { ggml_cann_pool_alloc workspace_allocator(ctx.pool(), workspaceSize); workspaceAddr = workspace_allocator.get(); }`
  — the allocator is a local of the `if` block, so its destructor
  (the pool release) runs at the closing brace, before the next line;
* `ACL_CHECK(aclnn##OP_NAME(workspaceAddr, workspaceSize, executor, ctx.stream()))`.

`ACL_CHECK` and `ggml_cann_pool_alloc` are defined in `common.h`, which
is not part of the excerpt.  Modelled from the spec: `ACL_CHECK` checks
the status of the wrapped call and turns any non-success value into an
immediate hard failure carrying the call name and status code, never
retrying (spec 4.3 and 7); `ggml_cann_pool_alloc` acquires exactly the
requested number of bytes from the pool on construction and releases
them on destruction (spec 6). -/
def GGML_CANN_CALL_ACLNN_OP (opName : String) (b : AclnnOpBehavior) :
    List AclEvent :=
  let q := AclEvent.query opName b.queryStatus b.queryWorkspaceSize
  if b.queryStatus ≠ ACL_SUCCESS then
    [q, AclEvent.fatalErr (opName ++ "GetWorkspaceSize") b.queryStatus]
  else
    let wsEvents : List AclEvent :=
      if b.queryWorkspaceSize > 0 then
        [AclEvent.poolAcquire b.queryWorkspaceSize, AclEvent.poolRelease]
      else []
    let wsNull : Bool := decide (b.queryWorkspaceSize = 0)
    let sub := AclEvent.submit opName wsNull b.queryWorkspaceSize b.execStatus
    if b.execStatus ≠ ACL_SUCCESS then
      q :: wsEvents ++ [sub, AclEvent.fatalErr opName b.execStatus]
    else
      q :: wsEvents ++ [sub]

/-- The sizes acquired from the pooled allocator during one expansion. -/
def acquiredSizes : List AclEvent → List Nat
  | [] => []
  | AclEvent.poolAcquire s :: es => s :: acquiredSizes es
  | _ :: es => acquiredSizes es

/-- The submit events of a trace. -/
def submitEvents : List AclEvent → List AclEvent
  | [] => []
  | AclEvent.submit n w s st :: es => AclEvent.submit n w s st :: submitEvents es
  | _ :: es => submitEvents es

/-- The query events of a trace. -/
def queryEvents : List AclEvent → List AclEvent
  | [] => []
  | AclEvent.query n st s :: es => AclEvent.query n st s :: queryEvents es
  | _ :: es => queryEvents es

/-- The hard-failure events of a trace. -/
def fatalEvents : List AclEvent → List AclEvent
  | [] => []
  | AclEvent.fatalErr n st :: es => AclEvent.fatalErr n st :: fatalEvents es
  | _ :: es => fatalEvents es

/-- Is this event a pool release? -/
def isRelease : AclEvent → Bool
  | AclEvent.poolRelease => true
  | _ => false

/-- Is this event an execute-phase submission? -/
def isSubmit : AclEvent → Bool
  | AclEvent.submit _ _ _ _ => true
  | _ => false

/-- `releaseRightAfterSubmit tr`: somewhere in `tr` a submit event is
immediately followed by a pool release — the ordering the claim about
the release point asserts. -/
def releaseRightAfterSubmit (tr : List AclEvent) : Bool :=
  (List.range tr.length).any fun i =>
    isSubmit (tr.getD i default) && isRelease (tr.getD (i + 1) default)

/-- `releaseBeforeSubmit tr`: some pool release occurs strictly before
some submit event in `tr`. -/
def releaseBeforeSubmit (tr : List AclEvent) : Bool :=
  (List.range tr.length).any fun i =>
    isRelease (tr.getD i default) &&
      ((List.range tr.length).any fun j =>
        decide (i < j) && isSubmit (tr.getD j default))

/-! ## Tensor descriptors and device tensor handles

`ggml_tensor` is modelled with the fields this layer reads: per-dimension
extents `ne`, per-dimension strides `nb` (in element units in this model),
and the underlying storage viewed as a flat map from element offset to
value (elements are modelled as rationals).  `aclTensor` is the device
handle: it carries the same shape/stride/data view. -/

/-- Host-side tensor descriptor (the part of `ggml_tensor` this layer
reads): rank is at most 4, `ne k` is the extent of dimension `k`,
`nb k` its stride in element units, `data` the flat storage view. -/
structure GgmlTensor where
  ne : Fin 4 → Nat
  nb : Fin 4 → Nat
  data : Nat → ℚ

/-- Device tensor handle: shape, stride and the (not copied) storage
view it refers to. -/
structure AclTensor where
  ne : Fin 4 → Nat
  nb : Fin 4 → Nat
  data : Nat → ℚ

/-- Modelled from the spec: `ggml_cann_create_tensor` (declared in
`acl_tensor.h`, body not in the excerpt) — the Tensor-Handle Adapter
(spec 4.1) faithfully encodes rank, per-dimension extent and stride,
and the storage location, without copying tensor data. -/
def ggml_cann_create_tensor (t : GgmlTensor) : AclTensor :=
  ⟨t.ne, t.nb, t.data⟩

/-- Flat element offset of multi-index `i` under strides `nb`. -/
def offsetOf (nb : Fin 4 → Nat) (i : Fin 4 → Nat) : Nat :=
  i 0 * nb 0 + i 1 * nb 1 + i 2 * nb 2 + i 3 * nb 3

/-- The element a device handle exposes at multi-index `i`: the handle
reads its storage through its own strides. -/
def aclGet (t : AclTensor) (i : Fin 4 → Nat) : ℚ :=
  t.data (offsetOf t.nb i)

/-- The mathematically broadcast element of a descriptor at multi-index
`i`: each coordinate is reduced modulo the extent of its dimension, so a
dimension of extent 1 is repeated. -/
def broadcastGet (t : GgmlTensor) (i : Fin 4 → Nat) : ℚ :=
  t.data (offsetOf t.nb fun k => i k % t.ne k)

/-- A concrete `Fin 4 → Nat` index vector. -/
def idx4 (a b c d : Nat) : Fin 4 → Nat
  | ⟨0, _⟩ => a
  | ⟨1, _⟩ => b
  | ⟨2, _⟩ => c
  | ⟨3, _⟩ => d

/-! ## Broadcast resolver

`bcast_shape` is declared in the excerpt (aclnn_ops.h lines 650-651)
but its body lives in `aclnn_ops.cpp`, which is not part of the
excerpt.  Modelled from the spec (4.2): compare the two input shapes
dimension by dimension; equal dimensions are kept as they are; a
mismatched dimension whose smaller side has extent 1 is virtually
expanded — the handle gets the other side's extent and stride 0 along
that dimension (zero data duplication); a mismatched dimension with
neither side at extent 1 is a broadcast-incompatibility failure.  The
destination handle is always built from the destination descriptor. -/

/-- Common extent of one dimension pair, `none` when the pair is
broadcast-incompatible (extents differ and neither is 1). -/
def bcastExtent (a b : Nat) : Option Nat :=
  if a = b then some a
  else if a = 1 then some b
  else if b = 1 then some a
  else none

/-- Shape-level broadcast compatibility of two descriptors. -/
def bcastCompatible (src0 src1 : GgmlTensor) : Bool :=
  decide (∀ k : Fin 4, (bcastExtent (src0.ne k) (src1.ne k)).isSome)

/-- The common iteration extent of a compatible dimension pair. -/
def commonExtent (a b : Nat) : Nat :=
  if a = b then a else if a = 1 then b else a

/-- The common iteration shape of two compatible descriptors. -/
def commonShape (src0 src1 : GgmlTensor) (k : Fin 4) : Nat :=
  commonExtent (src0.ne k) (src1.ne k)

/-- Virtual expansion of a descriptor to a target shape: a dimension
already at the target extent keeps its extent and stride; a dimension
below it (extent 1 under compatibility) is expanded to the target
extent with stride 0. -/
def expandTo (t : GgmlTensor) (target : Fin 4 → Nat) : AclTensor :=
  ⟨fun k => if t.ne k = target k then t.ne k else target k,
   fun k => if t.ne k = target k then t.nb k else 0,
   t.data⟩

/-- Modelled from the spec: `bcast_shape` (aclnn_ops.h lines 650-651;
body in `aclnn_ops.cpp`, not in the excerpt).  Produces the three
device handles for a binary operator, virtually expanding extent-1
dimensions via stride 0, or fails (`none`) on a broadcast-incompatible
dimension pair before any device call. -/
def bcast_shape (src0 src1 dst : GgmlTensor) :
    Option (AclTensor × AclTensor × AclTensor) :=
  if bcastCompatible src0 src1 then
    let c := commonShape src0 src1
    some (expandTo src0 c, expandTo src1 c, ggml_cann_create_tensor dst)
  else
    none

/-! ## Generic dispatch templates: value semantics

`ggml_cann_binary_op` (aclnn_ops.h lines 666-682) resolves broadcast
handles via `bcast_shape`, invokes the wrapped two-operand procedure on
them, and destroys the handles.  Its value semantics: the destination
element at each multi-index of the common shape is the operator applied
to what the two (possibly expanded) handles expose there.  The wrapped
operator itself is vendor code, abstracted as a pure elementwise
function. -/

/-- Value semantics of `ggml_cann_binary_op` instantiated with a pure
elementwise binary operator `f`: `none` when broadcast resolution
fails, otherwise the map from multi-index to the computed destination
element. -/
def ggml_cann_binary_op_val (f : ℚ → ℚ → ℚ) (src0 src1 dst : GgmlTensor) :
    Option ((Fin 4 → Nat) → ℚ) :=
  match bcast_shape src0 src1 dst with
  | none => none
  | some (a0, a1, _) => some fun i => f (aclGet a0 i) (aclGet a1 i)

/-- The destination node of a unary operator as `ggml_cann_unary_op`
reads it: the id of the destination storage and of its single source
`dst->src[0]`. -/
structure UnaryNodeVal where
  id : Nat
  src0 : Nat

/-- Value semantics of `ggml_cann_unary_op` (aclnn_ops.h lines 697-707)
instantiated with a pure elementwise unary operator `f` over a store
mapping tensor ids to buffer contents: the destination buffer becomes
the elementwise image of the source buffer, nothing else changes. -/
def ggml_cann_unary_op_val (f : ℚ → ℚ) (dst : UnaryNodeVal)
    (st : Nat → List ℚ) : Nat → List ℚ :=
  Function.update st dst.id ((st dst.src0).map f)

/-! ## Generic dispatch templates: handle-lifecycle traces

The resource behaviour of the two templates is embedded as
trace-producing functions.  Events mirror the statements of
`ggml_cann_binary_op` (lines 666-682) and `ggml_cann_unary_op` (lines
697-707): handle creation (by `bcast_shape` resp.
`ggml_cann_create_tensor`), the wrapped operator call, and the
`ACL_CHECK(aclDestroyTensor(...))` calls.  Modelled from the spec:
`ACL_CHECK` (defined in `common.h`, not in the excerpt) turns any
non-success status into an immediate hard failure that halts the
invocation (spec 4.3 and 7), and a failure inside the wrapped operator
likewise aborts the invocation at that point, so statements after it do
not execute. -/

/-- Observable events of one dispatch-template invocation. -/
inductive DispatchEvent where
  /-- a device tensor handle was created -/
  | createHandle
  /-- broadcast resolution failed: broadcast-incompatibility error -/
  | bcastFail
  /-- the wrapped operator procedure ran and finished with `status` -/
  | opCall (status : Int)
  /-- `aclDestroyTensor` was called and returned `status` (the handle
  counts as destroyed only when `status` is success) -/
  | destroyCall (status : Int)
  /-- `ACL_CHECK` observed a non-success status: hard failure, halt -/
  | fatalErr (status : Int)
deriving DecidableEq, Repr

/-- The destruction sequence `ACL_CHECK(aclDestroyTensor(...)); ...`
over the statuses the destroy calls return: destroys run in order until
the first non-success status, which becomes a hard failure. -/
def destroySeq : List Int → List DispatchEvent
  | [] => []
  | d :: rest =>
    if d = ACL_SUCCESS then DispatchEvent.destroyCall d :: destroySeq rest
    else [DispatchEvent.destroyCall d, DispatchEvent.fatalErr d]

/-- Trace of `ggml_cann_binary_op` (aclnn_ops.h lines 666-682):
`bcast_shape` either fails or creates the three handles; then the
wrapped operator runs (a non-success outcome halts the invocation);
then the three `ACL_CHECK(aclDestroyTensor(...))` calls run in order.
`opStatus` is the outcome of the wrapped operator, `d j` the status
returned by the `j`-th destroy call. -/
def ggml_cann_binary_op_trace (src0 src1 dst : GgmlTensor)
    (opStatus : Int) (d : Fin 3 → Int) : List DispatchEvent :=
  match bcast_shape src0 src1 dst with
  | none => [DispatchEvent.bcastFail]
  | some _ =>
    [DispatchEvent.createHandle, DispatchEvent.createHandle,
     DispatchEvent.createHandle, DispatchEvent.opCall opStatus] ++
    if opStatus ≠ ACL_SUCCESS then [DispatchEvent.fatalErr opStatus]
    else destroySeq [d 0, d 1, d 2]

/-- Trace of `ggml_cann_unary_op` (aclnn_ops.h lines 697-707): two
handle creations via `ggml_cann_create_tensor`, the wrapped operator,
then the two `ACL_CHECK(aclDestroyTensor(...))` calls in order. -/
def ggml_cann_unary_op_trace (opStatus : Int) (d : Fin 2 → Int) :
    List DispatchEvent :=
  [DispatchEvent.createHandle, DispatchEvent.createHandle,
   DispatchEvent.opCall opStatus] ++
  if opStatus ≠ ACL_SUCCESS then [DispatchEvent.fatalErr opStatus]
  else destroySeq [d 0, d 1]

/-- Number of handle creations in a trace. -/
def countCreated : List DispatchEvent → Nat
  | [] => 0
  | DispatchEvent.createHandle :: es => countCreated es + 1
  | _ :: es => countCreated es

/-- Number of handles actually destroyed in a trace: destroy calls
that returned the success status. -/
def countDestroyed : List DispatchEvent → Nat
  | [] => 0
  | DispatchEvent.destroyCall s :: es =>
    if s = ACL_SUCCESS then countDestroyed es + 1 else countDestroyed es
  | _ :: es => countDestroyed es

/-- First non-success status of a destroy-status list. -/
def firstFailing : List Int → Option Int
  | [] => none
  | d :: rest => if d = ACL_SUCCESS then firstFailing rest else some d

/-! ## Elementwise binary primitives with optional destination

`aclnn_add`, `aclnn_sub`, `aclnn_mul`, `aclnn_div` (aclnn_ops.h lines
506-565) are declared with a trailing destination parameter defaulting
to `nullptr`.  Their bodies are in `aclnn_ops.cpp`, not in the excerpt.
Modelled from the spec and the header docs: with a destination present
the elementwise result is written there; with the destination omitted
(null) the operation runs in place on the first operand, whose storage
then holds the result.  The store maps tensor handles (ids) to buffer
contents. -/

/-- Elementwise combination with an optional destination: write
`zipWith f` of the two operand buffers to `dst` when given, else in
place into the first operand's buffer. -/
def binWithDst (f : ℚ → ℚ → ℚ) (src0 src1 : Nat) (dst : Option Nat)
    (st : Nat → List ℚ) : Nat → List ℚ :=
  match dst with
  | some d => Function.update st d (List.zipWith f (st src0) (st src1))
  | none => Function.update st src0 (List.zipWith f (st src0) (st src1))

/-- `aclnn_add` (aclnn_ops.h lines 506-507): elementwise addition,
destination defaults to null (in-place on the first operand). -/
def aclnn_add (acl_src0 acl_src1 : Nat)
    (acl_dst : optParam (Option Nat) none) (st : Nat → List ℚ) :
    Nat → List ℚ :=
  binWithDst (· + ·) acl_src0 acl_src1 acl_dst st

/-- `aclnn_sub` (aclnn_ops.h lines 524-525): elementwise subtraction,
destination defaults to null (in-place on the first operand). -/
def aclnn_sub (acl_src0 acl_src1 : Nat)
    (acl_dst : optParam (Option Nat) none) (st : Nat → List ℚ) :
    Nat → List ℚ :=
  binWithDst (· - ·) acl_src0 acl_src1 acl_dst st

/-- `aclnn_mul` (aclnn_ops.h lines 543-544): elementwise
multiplication, destination defaults to null (in-place on the first
operand). -/
def aclnn_mul (acl_src acl_other : Nat)
    (acl_dst : optParam (Option Nat) none) (st : Nat → List ℚ) :
    Nat → List ℚ :=
  binWithDst (· * ·) acl_src acl_other acl_dst st

/-- `aclnn_div` (aclnn_ops.h lines 546-565): elementwise division,
destination defaults to null (in-place on the first operand). -/
def aclnn_div (acl_src acl_other : Nat)
    (acl_dst : optParam (Option Nat) none) (st : Nat → List ℚ) :
    Nat → List ℚ :=
  binWithDst (· / ·) acl_src acl_other acl_dst st

/-! ## Clamp -/

/-- The destination node of `ggml_cann_clamp` as the header describes
it: the source buffer and the `min` and `max` values read from the
destination node's parameters. -/
structure ClampNode where
  src : List ℚ
  minVal : ℚ
  maxVal : ℚ

/-- Modelled from the spec: body of `ggml_cann_clamp` (declared at
aclnn_ops.h lines 122-138, body in `aclnn_ops.cpp`, not in the
excerpt).  Per the header doc: each element `x` of the source is
mapped to `y = max(min(x, max_value), min_value)`, with `min` and
`max` from the destination node's parameters. -/
def ggml_cann_clamp (n : ClampNode) : List ℚ :=
  n.src.map fun x => max (min x n.maxVal) n.minVal

/-! ## Concrete inputs used by the scenarios -/

/-- Concrete src0 of logical shape (2 rows, 3 columns): rows
`[[1,2,3],[4,5,6]]`.  In ggml layout `ne 0` is the column extent. -/
def bcastExSrc0 : GgmlTensor :=
  ⟨idx4 3 2 1 1, idx4 1 3 6 6, fun n => [(1 : ℚ), 2, 3, 4, 5, 6].getD n 0⟩

/-- Concrete src1 of logical shape (2 rows, 1 column): rows
`[[10],[20]]`. -/
def bcastExSrc1 : GgmlTensor :=
  ⟨idx4 1 2 1 1, idx4 1 1 2 2, fun n => [(10 : ℚ), 20].getD n 0⟩

/-- Concrete destination descriptor of logical shape (2 rows, 3
columns). -/
def bcastExDst : GgmlTensor :=
  ⟨idx4 3 2 1 1, idx4 1 3 6 6, fun _ => 0⟩

/-- Concrete tensor of logical shape (2 rows, 4 columns): broadcast
incompatible with `bcastExSrc0` in dimension 0 (3 versus 4, neither
is 1). -/
def badExSrc1 : GgmlTensor :=
  ⟨idx4 4 2 1 1, idx4 1 4 8 8, fun _ => 0⟩

/-- Concrete unary destination node: destination storage id 0, source
storage id 1. -/
def exUnaryNode : UnaryNodeVal := ⟨0, 1⟩

/-- Concrete store for the unary scenarios: every id holds `[1, -2]`. -/
def exUnaryStore : Nat → List ℚ := fun _ => [1, -2]

/-- Concrete store for the in-place binary scenarios: id 0 holds
`[1, 2]`, id 1 holds `[10, 20]`, all others are empty. -/
def exBinStore : Nat → List ℚ := fun n => [[(1 : ℚ), 2], [10, 20]].getD n []

/-- Concrete clamp node: input `[-1, 1/2, 2]`, range `[0, 1]`. -/
def exClampNode : ClampNode := ⟨[-1, 1/2, 2], 0, 1⟩

/-! ## Broadcast resolver lemmas -/

lemma expandTo_term (t : GgmlTensor) (c : Fin 4 → Nat)
    (i : Fin 4 → Nat) (k : Fin 4) (h : t.ne k = c k ∨ t.ne k = 1)
    (hi : i k < c k) :
    i k * (expandTo t c).nb k = (i k % t.ne k) * t.nb k := by
  by_cases hk : t.ne k = c k
  · rw [hk, Nat.mod_eq_of_lt hi]
    simp [expandTo, hk]
  · rcases h with h | h
    · exact absurd h hk
    · have h1 : (1 : Nat) ≠ c k := h ▸ hk
      simp [expandTo, hk, h, Nat.mod_one, h1]

lemma aclGet_expandTo (t : GgmlTensor) (c : Fin 4 → Nat)
    (h : ∀ k, t.ne k = c k ∨ t.ne k = 1) (i : Fin 4 → Nat)
    (hi : ∀ k, i k < c k) :
    aclGet (expandTo t c) i = broadcastGet t i := by
  show t.data _ = t.data _
  congr 1
  show offsetOf (expandTo t c).nb i = offsetOf t.nb fun k => i k % t.ne k
  unfold offsetOf
  rw [expandTo_term t c i 0 (h 0) (hi 0), expandTo_term t c i 1 (h 1) (hi 1),
      expandTo_term t c i 2 (h 2) (hi 2), expandTo_term t c i 3 (h 3) (hi 3)]

lemma ne0_commonExtent (a b : Nat) : a = commonExtent a b ∨ a = 1 := by
  unfold commonExtent
  by_cases hab : a = b
  · left; rw [if_pos hab]
  · rw [if_neg hab]
    by_cases ha : a = 1
    · right; exact ha
    · left; rw [if_neg ha]

lemma ne1_commonExtent (a b : Nat) (h : a = b ∨ a = 1 ∨ b = 1) :
    b = commonExtent a b ∨ b = 1 := by
  unfold commonExtent
  by_cases hab : a = b
  · left; rw [if_pos hab]; exact hab.symm
  · rw [if_neg hab]
    rcases h with h | h | h
    · exact absurd h hab
    · left; rw [if_pos h]
    · right; exact h

lemma commonExtent_right_one (a : Nat) (ha : a ≠ 1) : commonExtent a 1 = a := by
  unfold commonExtent
  rw [if_neg ha, if_neg ha]

lemma commonExtent_left_one (b : Nat) : commonExtent 1 b = b := by
  unfold commonExtent
  by_cases hb : (1 : Nat) = b
  · rw [if_pos hb]; exact hb
  · rw [if_neg hb, if_pos rfl]

lemma expandTo_mismatch (t : GgmlTensor) (c : Fin 4 → Nat) (k : Fin 4)
    (h : t.ne k ≠ c k) :
    (expandTo t c).ne k = c k ∧ (expandTo t c).nb k = 0 := by
  constructor <;> simp [expandTo, h]

lemma bcastExtent_isSome (a b : Nat) (h : a = b ∨ a = 1 ∨ b = 1) :
    (bcastExtent a b).isSome = true := by
  unfold bcastExtent
  by_cases hab : a = b
  · rw [if_pos hab]; rfl
  · rw [if_neg hab]
    by_cases ha : a = 1
    · rw [if_pos ha]; rfl
    · rw [if_neg ha]
      rcases h with h | h | h
      · exact absurd h hab
      · exact absurd h ha
      · rw [if_pos h]; rfl

lemma bcastCompatible_of (src0 src1 : GgmlTensor)
    (h : ∀ k, src0.ne k = src1.ne k ∨ src0.ne k = 1 ∨ src1.ne k = 1) :
    bcastCompatible src0 src1 = true := by
  rw [bcastCompatible, decide_eq_true_eq]
  exact fun k => bcastExtent_isSome _ _ (h k)

lemma bcast_shape_eq (src0 src1 dst : GgmlTensor)
    (h : ∀ k, src0.ne k = src1.ne k ∨ src0.ne k = 1 ∨ src1.ne k = 1) :
    bcast_shape src0 src1 dst =
      some (expandTo src0 (commonShape src0 src1),
            expandTo src1 (commonShape src0 src1),
            ggml_cann_create_tensor dst) := by
  rw [bcast_shape, bcastCompatible_of src0 src1 h]
  rfl

lemma ggml_cann_binary_op_val_eq (f : ℚ → ℚ → ℚ) (src0 src1 dst : GgmlTensor)
    (h : ∀ k, src0.ne k = src1.ne k ∨ src0.ne k = 1 ∨ src1.ne k = 1) :
    ggml_cann_binary_op_val f src0 src1 dst =
      some fun i => f (aclGet (expandTo src0 (commonShape src0 src1)) i)
                      (aclGet (expandTo src1 (commonShape src0 src1)) i) := by
  rw [ggml_cann_binary_op_val, bcast_shape_eq _ _ _ h]

/-! ## Claim theorems -/

/-- Claim C1: whenever every mismatched dimension of the two input
shapes has exactly one operand at extent 1, `bcast_shape` succeeds and
gives the expanded operand a handle with stride 0 and the other
operand's extent along each mismatched dimension, and the binary
dispatch computes the mathematically broadcast elementwise result at
every index of the common shape; in particular adding shape (2,3)
`[[1,2,3],[4,5,6]]` to shape (2,1) `[[10],[20]]` yields
`[[11,12,13],[24,25,26]]`. -/
theorem binary_broadcast_correct (src0 src1 dst : GgmlTensor) (f : ℚ → ℚ → ℚ)
    (hcompat : ∀ k, src0.ne k = src1.ne k ∨ src0.ne k = 1 ∨ src1.ne k = 1) :
    (∃ a0 a1 ad, bcast_shape src0 src1 dst = some (a0, a1, ad) ∧
      (∀ k, src0.ne k ≠ src1.ne k → src1.ne k = 1 →
        a1.nb k = 0 ∧ a1.ne k = src0.ne k) ∧
      (∀ k, src0.ne k ≠ src1.ne k → src0.ne k = 1 →
        a0.nb k = 0 ∧ a0.ne k = src1.ne k) ∧
      ∃ r, ggml_cann_binary_op_val f src0 src1 dst = some r ∧
        ∀ i, (∀ k, i k < commonShape src0 src1 k) →
          r i = f (broadcastGet src0 i) (broadcastGet src1 i)) ∧
    (ggml_cann_binary_op_val (· + ·) bcastExSrc0 bcastExSrc1 bcastExDst).map
      (fun r => [r (idx4 0 0 0 0), r (idx4 1 0 0 0), r (idx4 2 0 0 0),
                 r (idx4 0 1 0 0), r (idx4 1 1 0 0), r (idx4 2 1 0 0)])
      = some [11, 12, 13, 24, 25, 26] := by
  have hsrc0C : ∀ k, src0.ne k = commonShape src0 src1 k ∨ src0.ne k = 1 :=
    fun k => ne0_commonExtent _ _
  have hsrc1C : ∀ k, src1.ne k = commonShape src0 src1 k ∨ src1.ne k = 1 :=
    fun k => ne1_commonExtent _ _ (hcompat k)
  constructor
  · refine ⟨_, _, _, bcast_shape_eq src0 src1 dst hcompat, ?_, ?_, ?_⟩
    · intro k hne h1
      have hc : commonShape src0 src1 k = src0.ne k := by
        simp only [commonShape]
        rw [h1, commonExtent_right_one _ (h1 ▸ hne)]
      have hmis : src1.ne k ≠ commonShape src0 src1 k := by
        rw [hc]; exact fun e => hne e.symm
      obtain ⟨hne2, hnb⟩ := expandTo_mismatch src1 (commonShape src0 src1) k hmis
      exact ⟨hnb, by rw [hne2, hc]⟩
    · intro k hne h0
      have hc : commonShape src0 src1 k = src1.ne k := by
        simp only [commonShape]
        rw [h0, commonExtent_left_one]
      have hmis : src0.ne k ≠ commonShape src0 src1 k := by
        rw [hc]; exact hne
      obtain ⟨hne2, hnb⟩ := expandTo_mismatch src0 (commonShape src0 src1) k hmis
      exact ⟨hnb, by rw [hne2, hc]⟩
    · refine ⟨_, ggml_cann_binary_op_val_eq f src0 src1 dst hcompat, ?_⟩
      intro i hi
      rw [aclGet_expandTo src0 _ hsrc0C i hi, aclGet_expandTo src1 _ hsrc1C i hi]
  · rw [ggml_cann_binary_op_val_eq (· + ·) bcastExSrc0 bcastExSrc1 bcastExDst
      (by decide)]
    have e0 : aclGet (expandTo bcastExSrc0 (commonShape bcastExSrc0 bcastExSrc1)) (idx4 0 0 0 0) = 1 := rfl
    have e1 : aclGet (expandTo bcastExSrc0 (commonShape bcastExSrc0 bcastExSrc1)) (idx4 1 0 0 0) = 2 := rfl
    have e2 : aclGet (expandTo bcastExSrc0 (commonShape bcastExSrc0 bcastExSrc1)) (idx4 2 0 0 0) = 3 := rfl
    have e3 : aclGet (expandTo bcastExSrc0 (commonShape bcastExSrc0 bcastExSrc1)) (idx4 0 1 0 0) = 4 := rfl
    have e4 : aclGet (expandTo bcastExSrc0 (commonShape bcastExSrc0 bcastExSrc1)) (idx4 1 1 0 0) = 5 := rfl
    have e5 : aclGet (expandTo bcastExSrc0 (commonShape bcastExSrc0 bcastExSrc1)) (idx4 2 1 0 0) = 6 := rfl
    have g0 : aclGet (expandTo bcastExSrc1 (commonShape bcastExSrc0 bcastExSrc1)) (idx4 0 0 0 0) = 10 := rfl
    have g1 : aclGet (expandTo bcastExSrc1 (commonShape bcastExSrc0 bcastExSrc1)) (idx4 1 0 0 0) = 10 := rfl
    have g2 : aclGet (expandTo bcastExSrc1 (commonShape bcastExSrc0 bcastExSrc1)) (idx4 2 0 0 0) = 10 := rfl
    have g3 : aclGet (expandTo bcastExSrc1 (commonShape bcastExSrc0 bcastExSrc1)) (idx4 0 1 0 0) = 20 := rfl
    have g4 : aclGet (expandTo bcastExSrc1 (commonShape bcastExSrc0 bcastExSrc1)) (idx4 1 1 0 0) = 20 := rfl
    have g5 : aclGet (expandTo bcastExSrc1 (commonShape bcastExSrc0 bcastExSrc1)) (idx4 2 1 0 0) = 20 := rfl
    simp only [Option.map_some']
    rw [e0, e1, e2, e3, e4, e5, g0, g1, g2, g3, g4, g5]
    norm_num

/-- Witness for C1 at the concrete (2,3) + (2,1) scenario. -/
theorem binary_broadcast_correct_witness :
    (∀ k, bcastExSrc0.ne k = bcastExSrc1.ne k ∨ bcastExSrc0.ne k = 1 ∨
      bcastExSrc1.ne k = 1) ∧
    (ggml_cann_binary_op_val (· + ·) bcastExSrc0 bcastExSrc1 bcastExDst).map
      (fun r => [r (idx4 0 0 0 0), r (idx4 1 0 0 0), r (idx4 2 0 0 0),
                 r (idx4 0 1 0 0), r (idx4 1 1 0 0), r (idx4 2 1 0 0)])
      = some [11, 12, 13, 24, 25, 26] :=
  ⟨by decide,
   (binary_broadcast_correct bcastExSrc0 bcastExSrc1 bcastExDst (· + ·)
     (by decide)).2⟩

/-- Claim C3 counterexample: the claim says the workspace is released
back to the pool immediately AFTER the execute-phase submission; in the
code the RAII allocator dies at the closing brace of the
`if (workspaceSize > 0)` block, so for query status 0 and workspace
size 16 the trace shows the pool release strictly BEFORE the submit
and no release after it. -/
theorem workspace_release_precedes_submit_counterexample :
    GGML_CANN_CALL_ACLNN_OP "Add" ⟨0, 16, 0⟩ =
      [AclEvent.query "Add" 0 16, AclEvent.poolAcquire 16, AclEvent.poolRelease,
       AclEvent.submit "Add" false 16 0] ∧
    releaseRightAfterSubmit (GGML_CANN_CALL_ACLNN_OP "Add" ⟨0, 16, 0⟩) = false ∧
    releaseBeforeSubmit (GGML_CANN_CALL_ACLNN_OP "Add" ⟨0, 16, 0⟩) = true :=
  ⟨by decide, by decide, by decide⟩

/-- Claim C3 (amended): with a nonzero reported workspace size, the
workspace is acquired after the query phase and released back to the
pool immediately BEFORE the execute-phase submission (right after its
address is recorded), with no other pool or device event in between —
the host-side free still falls between this operator's query and the
next submission on the stream. -/
theorem workspace_release_before_submit (name : String) (b : AclnnOpBehavior)
    (hq : b.queryStatus = ACL_SUCCESS) (hw : 0 < b.queryWorkspaceSize) :
    GGML_CANN_CALL_ACLNN_OP name b =
      [AclEvent.query name b.queryStatus b.queryWorkspaceSize,
       AclEvent.poolAcquire b.queryWorkspaceSize,
       AclEvent.poolRelease,
       AclEvent.submit name false b.queryWorkspaceSize b.execStatus] ++
      (if b.execStatus ≠ ACL_SUCCESS then [AclEvent.fatalErr name b.execStatus]
       else []) := by
  have hw0 : b.queryWorkspaceSize ≠ 0 := Nat.pos_iff_ne_zero.mp hw
  by_cases he : b.execStatus = ACL_SUCCESS <;>
    simp [GGML_CANN_CALL_ACLNN_OP, hq, hw, hw0, he]

/-- Witness for the amended C3 at query status 0, workspace size 16. -/
theorem workspace_release_before_submit_witness :
    (0 : Int) = ACL_SUCCESS ∧ 0 < 16 ∧
    GGML_CANN_CALL_ACLNN_OP "Add" ⟨0, 16, 0⟩ =
      [AclEvent.query "Add" 0 16, AclEvent.poolAcquire 16, AclEvent.poolRelease,
       AclEvent.submit "Add" false 16 0] ++
      (if (0 : Int) ≠ ACL_SUCCESS then [AclEvent.fatalErr "Add" 0] else []) :=
  ⟨by decide, by decide,
   workspace_release_before_submit "Add" ⟨0, 16, 0⟩ (by decide) (by decide)⟩

/-- Claim C4: after a successful query phase, a nonzero reported
workspace size leads to exactly one pool acquisition of exactly that
many bytes, and a zero reported size leads to no acquisition at all
with the execute phase submitted with a null workspace pointer and
size zero. -/
theorem workspace_exact_size (name : String) (b : AclnnOpBehavior)
    (hq : b.queryStatus = ACL_SUCCESS) :
    (0 < b.queryWorkspaceSize →
      acquiredSizes (GGML_CANN_CALL_ACLNN_OP name b) = [b.queryWorkspaceSize]) ∧
    (b.queryWorkspaceSize = 0 →
      acquiredSizes (GGML_CANN_CALL_ACLNN_OP name b) = [] ∧
      submitEvents (GGML_CANN_CALL_ACLNN_OP name b) =
        [AclEvent.submit name true 0 b.execStatus]) := by
  constructor
  · intro hw
    have hw0 : b.queryWorkspaceSize ≠ 0 := Nat.pos_iff_ne_zero.mp hw
    by_cases he : b.execStatus = ACL_SUCCESS <;>
      simp [GGML_CANN_CALL_ACLNN_OP, hq, hw, hw0, he, acquiredSizes]
  · intro hw
    by_cases he : b.execStatus = ACL_SUCCESS <;>
      simp [GGML_CANN_CALL_ACLNN_OP, hq, hw, he, acquiredSizes, submitEvents]

/-- Witness for C4 at workspace size 16. -/
theorem workspace_exact_size_witness :
    (0 : Int) = ACL_SUCCESS ∧
    (0 < 16 →
      acquiredSizes (GGML_CANN_CALL_ACLNN_OP "Mul" ⟨0, 16, 0⟩) = [16]) ∧
    ((16 : Nat) = 0 →
      acquiredSizes (GGML_CANN_CALL_ACLNN_OP "Mul" ⟨0, 16, 0⟩) = [] ∧
      submitEvents (GGML_CANN_CALL_ACLNN_OP "Mul" ⟨0, 16, 0⟩) =
        [AclEvent.submit "Mul" true 0 0]) :=
  ⟨by decide, (workspace_exact_size "Mul" ⟨0, 16, 0⟩ (by decide)).1,
   fun h => absurd h (by decide)⟩

/-- Claim C6: both device-facing calls of the two-phase protocol have
their status checked; a non-success query status halts the invocation
immediately with a hard failure carrying the failing call name and the
status code and no execute submission ever happens; a non-success
execute status likewise becomes exactly one hard failure carrying the
operator name and status; the query is issued exactly once (never
retried) and no failure event arises when both statuses are success. -/
theorem status_checked_fatal (name : String) (b : AclnnOpBehavior) :
    (queryEvents (GGML_CANN_CALL_ACLNN_OP name b)).length = 1 ∧
    (b.queryStatus ≠ ACL_SUCCESS →
      GGML_CANN_CALL_ACLNN_OP name b =
        [AclEvent.query name b.queryStatus b.queryWorkspaceSize,
         AclEvent.fatalErr (name ++ "GetWorkspaceSize") b.queryStatus] ∧
      submitEvents (GGML_CANN_CALL_ACLNN_OP name b) = []) ∧
    (b.queryStatus = ACL_SUCCESS → b.execStatus ≠ ACL_SUCCESS →
      fatalEvents (GGML_CANN_CALL_ACLNN_OP name b) =
        [AclEvent.fatalErr name b.execStatus] ∧
      (submitEvents (GGML_CANN_CALL_ACLNN_OP name b)).length = 1) ∧
    (b.queryStatus = ACL_SUCCESS → b.execStatus = ACL_SUCCESS →
      fatalEvents (GGML_CANN_CALL_ACLNN_OP name b) = []) := by
  by_cases hq : b.queryStatus = ACL_SUCCESS <;>
    by_cases he : b.execStatus = ACL_SUCCESS <;>
    by_cases hw : b.queryWorkspaceSize = 0 <;>
    [skip; (have hw2 : 0 < b.queryWorkspaceSize := Nat.pos_of_ne_zero hw);
     skip; (have hw2 : 0 < b.queryWorkspaceSize := Nat.pos_of_ne_zero hw);
     skip; (have hw2 : 0 < b.queryWorkspaceSize := Nat.pos_of_ne_zero hw);
     skip; (have hw2 : 0 < b.queryWorkspaceSize := Nat.pos_of_ne_zero hw)] <;>
    refine ⟨?_, ?_, ?_, ?_⟩ <;>
    simp_all [GGML_CANN_CALL_ACLNN_OP, queryEvents, submitEvents, fatalEvents]

/-- Witness for C6 at a failing query phase (status 7). -/
theorem status_checked_fatal_witness :
    (queryEvents (GGML_CANN_CALL_ACLNN_OP "Exp" ⟨7, 0, 0⟩)).length = 1 ∧
    ((7 : Int) ≠ ACL_SUCCESS →
      GGML_CANN_CALL_ACLNN_OP "Exp" ⟨7, 0, 0⟩ =
        [AclEvent.query "Exp" 7 0, AclEvent.fatalErr "ExpGetWorkspaceSize" 7] ∧
      submitEvents (GGML_CANN_CALL_ACLNN_OP "Exp" ⟨7, 0, 0⟩) = []) :=
  ⟨(status_checked_fatal "Exp" ⟨7, 0, 0⟩).1,
   (status_checked_fatal "Exp" ⟨7, 0, 0⟩).2.1⟩

/-! ## Dispatch-template lemmas -/

lemma destroySeq_mem_fatal (ds : List Int) (s : Int) (hs : s ≠ ACL_SUCCESS)
    (hmem : DispatchEvent.destroyCall s ∈ destroySeq ds) :
    DispatchEvent.fatalErr s ∈ destroySeq ds := by
  induction ds with
  | nil => simp [destroySeq] at hmem
  | cons d rest ih =>
    by_cases hd : d = ACL_SUCCESS
    · simp only [destroySeq, if_pos hd, List.mem_cons] at hmem ⊢
      rcases hmem with hmem | hmem
      · have hsd : s = d := by simpa using hmem
        exact absurd (hsd.trans hd) hs
      · exact Or.inr (ih hmem)
    · simp only [destroySeq, if_neg hd, List.mem_cons] at hmem ⊢
      rcases hmem with hmem | hmem
      · have hsd : s = d := by simpa using hmem
        subst hsd
        simp
      · simp at hmem

lemma bcast_shape_none (src0 src1 dst : GgmlTensor)
    (hbad : ∃ k, src0.ne k ≠ src1.ne k ∧ src0.ne k ≠ 1 ∧ src1.ne k ≠ 1) :
    bcast_shape src0 src1 dst = none := by
  obtain ⟨k, h1, h2, h3⟩ := hbad
  have hfalse : bcastCompatible src0 src1 = false := by
    rw [bcastCompatible, decide_eq_false_iff_not]
    intro hall
    have := hall k
    rw [bcastExtent, if_neg h1, if_neg h2, if_neg h3] at this
    simp at this
  rw [bcast_shape, hfalse]
  simp

lemma binary_trace_none (src0 src1 dst : GgmlTensor) (opStatus : Int)
    (d : Fin 3 → Int) (hb : bcast_shape src0 src1 dst = none) :
    ggml_cann_binary_op_trace src0 src1 dst opStatus d =
      [DispatchEvent.bcastFail] := by
  rw [ggml_cann_binary_op_trace, hb]

lemma binary_trace_some (src0 src1 dst : GgmlTensor) (opStatus : Int)
    (d : Fin 3 → Int) (trip : AclTensor × AclTensor × AclTensor)
    (hb : bcast_shape src0 src1 dst = some trip) :
    ggml_cann_binary_op_trace src0 src1 dst opStatus d =
      [DispatchEvent.createHandle, DispatchEvent.createHandle,
       DispatchEvent.createHandle, DispatchEvent.opCall opStatus] ++
      (if opStatus ≠ ACL_SUCCESS then [DispatchEvent.fatalErr opStatus]
       else destroySeq [d 0, d 1, d 2]) := by
  rw [ggml_cann_binary_op_trace, hb]

/-- Claim C2 counterexample: when the wrapped operator fails (status 7),
the hard failure halts the invocation before any
`ACL_CHECK(aclDestroyTensor(...))` runs, so the binary dispatch creates
3 handles and destroys 0, and the unary dispatch creates 2 and destroys
0 — creation and destruction counts differ on the failure path, contrary
to the claim. -/
theorem handle_create_destroy_balance_counterexample :
    countCreated (ggml_cann_binary_op_trace bcastExSrc0 bcastExSrc1 bcastExDst 7
      (fun _ => 0)) = 3 ∧
    countDestroyed (ggml_cann_binary_op_trace bcastExSrc0 bcastExSrc1 bcastExDst 7
      (fun _ => 0)) = 0 ∧
    countCreated (ggml_cann_unary_op_trace 7 (fun _ => 0)) = 2 ∧
    countDestroyed (ggml_cann_unary_op_trace 7 (fun _ => 0)) = 0 :=
  ⟨by decide, by decide, by decide, by decide⟩

/-- Claim C2 (amended): on every exit path on which the wrapped operator
and all destroy calls succeed, the number of handles created equals the
number destroyed (3 for the binary template, 2 for the unary template);
when the wrapped operator fails, the failure halts the invocation before
the destroy calls, so all created handles (3 resp. 2) are left
undestroyed — the templates have no scope guard, handle destruction is
by straight-line destroy calls after the operator call. -/
theorem handle_create_destroy_balance (src0 src1 dst : GgmlTensor)
    (opStatus : Int) (d : Fin 3 → Int) (opStatusU : Int) (dU : Fin 2 → Int)
    (hcompat : ∀ k, src0.ne k = src1.ne k ∨ src0.ne k = 1 ∨ src1.ne k = 1) :
    (opStatus = ACL_SUCCESS → (∀ j, d j = ACL_SUCCESS) →
      countCreated (ggml_cann_binary_op_trace src0 src1 dst opStatus d) = 3 ∧
      countDestroyed (ggml_cann_binary_op_trace src0 src1 dst opStatus d) = 3) ∧
    (opStatus ≠ ACL_SUCCESS →
      countCreated (ggml_cann_binary_op_trace src0 src1 dst opStatus d) = 3 ∧
      countDestroyed (ggml_cann_binary_op_trace src0 src1 dst opStatus d) = 0) ∧
    (opStatusU = ACL_SUCCESS → (∀ j, dU j = ACL_SUCCESS) →
      countCreated (ggml_cann_unary_op_trace opStatusU dU) = 2 ∧
      countDestroyed (ggml_cann_unary_op_trace opStatusU dU) = 2) ∧
    (opStatusU ≠ ACL_SUCCESS →
      countCreated (ggml_cann_unary_op_trace opStatusU dU) = 2 ∧
      countDestroyed (ggml_cann_unary_op_trace opStatusU dU) = 0) := by
  refine ⟨?_, ?_, ?_, ?_⟩
  · intro ho hd
    rw [ggml_cann_binary_op_trace, bcast_shape_eq src0 src1 dst hcompat]
    simp [ho, destroySeq, hd 0, hd 1, hd 2, countCreated, countDestroyed]
  · intro ho
    rw [ggml_cann_binary_op_trace, bcast_shape_eq src0 src1 dst hcompat]
    simp [ho, countCreated, countDestroyed]
  · intro ho hd
    rw [ggml_cann_unary_op_trace]
    simp [ho, destroySeq, hd 0, hd 1, countCreated, countDestroyed]
  · intro ho
    rw [ggml_cann_unary_op_trace]
    simp [ho, countCreated, countDestroyed]

/-- Witness for the amended C2 at a failing wrapped operator. -/
theorem handle_create_destroy_balance_witness :
    (∀ k, bcastExSrc0.ne k = bcastExSrc1.ne k ∨ bcastExSrc0.ne k = 1 ∨
      bcastExSrc1.ne k = 1) ∧
    ((7 : Int) ≠ ACL_SUCCESS →
      countCreated (ggml_cann_binary_op_trace bcastExSrc0 bcastExSrc1 bcastExDst 7
        (fun _ => 0)) = 3 ∧
      countDestroyed (ggml_cann_binary_op_trace bcastExSrc0 bcastExSrc1 bcastExDst 7
        (fun _ => 0)) = 0) :=
  ⟨by decide,
   (handle_create_destroy_balance bcastExSrc0 bcastExSrc1 bcastExDst 7
     (fun _ => 0) 7 (fun _ => 0) (by decide)).2.1⟩

/-- Claim C5: when some dimension has different extents on the two
operands and neither is 1, `bcast_shape` fails deterministically
(returns no handles), the binary dispatch trace is just the
broadcast-incompatibility error with no operator call issued, and the
value semantics yields no result; in particular an add of shapes (2,3)
and (2,4) fails with no device call. -/
theorem incompatible_broadcast_fails (src0 src1 dst : GgmlTensor)
    (opStatus : Int) (d : Fin 3 → Int)
    (hbad : ∃ k, src0.ne k ≠ src1.ne k ∧ src0.ne k ≠ 1 ∧ src1.ne k ≠ 1) :
    (bcast_shape src0 src1 dst = none ∧
     ggml_cann_binary_op_trace src0 src1 dst opStatus d =
       [DispatchEvent.bcastFail] ∧
     (∀ s, DispatchEvent.opCall s ∉
       ggml_cann_binary_op_trace src0 src1 dst opStatus d) ∧
     ggml_cann_binary_op_val (· + ·) src0 src1 dst = none) ∧
    (ggml_cann_binary_op_trace bcastExSrc0 badExSrc1 bcastExDst 0 (fun _ => 0) =
       [DispatchEvent.bcastFail] ∧
     (bcast_shape bcastExSrc0 badExSrc1 bcastExDst).isNone = true) := by
  have hnone := bcast_shape_none src0 src1 dst hbad
  refine ⟨⟨hnone, ?_, ?_, ?_⟩, by decide, by decide⟩
  · rw [ggml_cann_binary_op_trace, hnone]
  · intro s
    rw [ggml_cann_binary_op_trace, hnone]
    simp
  · rw [ggml_cann_binary_op_val, hnone]

/-- Witness for C5 at the concrete (2,3) versus (2,4) scenario. -/
theorem incompatible_broadcast_fails_witness :
    (∃ k, bcastExSrc0.ne k ≠ badExSrc1.ne k ∧ bcastExSrc0.ne k ≠ 1 ∧
      badExSrc1.ne k ≠ 1) ∧
    bcast_shape bcastExSrc0 badExSrc1 bcastExDst = none ∧
    ggml_cann_binary_op_trace bcastExSrc0 badExSrc1 bcastExDst 0 (fun _ => 0) =
      [DispatchEvent.bcastFail] :=
  ⟨by decide,
   ((incompatible_broadcast_fails bcastExSrc0 badExSrc1 bcastExDst 0 (fun _ => 0)
     (by decide)).1).1,
   (((incompatible_broadcast_fails bcastExSrc0 badExSrc1 bcastExDst 0 (fun _ => 0)
     (by decide)).1).2).1⟩

/-- Claim C10: in both dispatch templates every
`ACL_CHECK(aclDestroyTensor(...))` has its status checked: a destroy
call that returns a non-success status always yields a hard-failure
event carrying that status (never ignored), and when the wrapped
operator and all destroy calls succeed no failure event occurs at
all. -/
theorem destroy_status_checked (src0 src1 dst : GgmlTensor) (opStatus : Int)
    (d : Fin 3 → Int) (opStatusU : Int) (dU : Fin 2 → Int) :
    (∀ s, s ≠ ACL_SUCCESS →
      DispatchEvent.destroyCall s ∈
        ggml_cann_binary_op_trace src0 src1 dst opStatus d →
      DispatchEvent.fatalErr s ∈
        ggml_cann_binary_op_trace src0 src1 dst opStatus d) ∧
    (∀ s, s ≠ ACL_SUCCESS →
      DispatchEvent.destroyCall s ∈ ggml_cann_unary_op_trace opStatusU dU →
      DispatchEvent.fatalErr s ∈ ggml_cann_unary_op_trace opStatusU dU) ∧
    (opStatus = ACL_SUCCESS → (∀ j, d j = ACL_SUCCESS) →
      ∀ s, DispatchEvent.fatalErr s ∉
        ggml_cann_binary_op_trace src0 src1 dst opStatus d) ∧
    (opStatusU = ACL_SUCCESS → (∀ j, dU j = ACL_SUCCESS) →
      ∀ s, DispatchEvent.fatalErr s ∉ ggml_cann_unary_op_trace opStatusU dU) := by
  refine ⟨?_, ?_, ?_, ?_⟩
  · intro s hs hmem
    rcases hb : bcast_shape src0 src1 dst with _ | trip
    · rw [binary_trace_none src0 src1 dst opStatus d hb] at hmem
      simp at hmem
    · rw [binary_trace_some src0 src1 dst opStatus d trip hb] at hmem ⊢
      by_cases ho : opStatus = ACL_SUCCESS
      · rw [if_neg (not_not_intro ho)] at hmem ⊢
        rw [List.mem_append] at hmem ⊢
        rcases hmem with hmem | hmem
        · simp at hmem
        · exact Or.inr (destroySeq_mem_fatal _ s hs hmem)
      · rw [if_pos ho] at hmem
        simp at hmem
  · intro s hs hmem
    rw [ggml_cann_unary_op_trace] at hmem ⊢
    by_cases ho : opStatusU = ACL_SUCCESS
    · rw [if_neg (not_not_intro ho)] at hmem ⊢
      rw [List.mem_append] at hmem ⊢
      rcases hmem with hmem | hmem
      · simp at hmem
      · exact Or.inr (destroySeq_mem_fatal _ s hs hmem)
    · rw [if_pos ho] at hmem
      simp at hmem
  · intro ho hd s
    rcases hb : bcast_shape src0 src1 dst with _ | trip
    · rw [binary_trace_none src0 src1 dst opStatus d hb]
      simp
    · rw [binary_trace_some src0 src1 dst opStatus d trip hb,
        if_neg (not_not_intro ho)]
      simp [destroySeq, hd 0, hd 1, hd 2]
  · intro ho hd s
    rw [ggml_cann_unary_op_trace, if_neg (not_not_intro ho)]
    simp [destroySeq, hd 0, hd 1]

/-- Witness for C10: second destroy of a binary dispatch fails with
status 9 and the trace carries the failure event. -/
theorem destroy_status_checked_witness :
    (9 : Int) ≠ ACL_SUCCESS ∧
    DispatchEvent.destroyCall 9 ∈
      ggml_cann_binary_op_trace bcastExSrc0 bcastExSrc1 bcastExDst 0
        (fun j => if j.val = 0 then 0 else 9) ∧
    DispatchEvent.fatalErr 9 ∈
      ggml_cann_binary_op_trace bcastExSrc0 bcastExSrc1 bcastExDst 0
        (fun j => if j.val = 0 then 0 else 9) :=
  ⟨by decide, by decide,
   (destroy_status_checked bcastExSrc0 bcastExSrc1 bcastExDst 0
     (fun j => if j.val = 0 then 0 else 9) 0 (fun _ => 0)).1 9
     (by decide) (by decide)⟩

/-- Claim C7: `ggml_cann_clamp` maps every element `x` of the source to
`max(min(x, max_value), min_value)` with the bounds from the node
parameters; clamping `[-1, 1/2, 2]` to `[0, 1]` gives `[0, 1/2, 1]`. -/
theorem clamp_correct (n : ClampNode) (i : Nat) (h : i < n.src.length)
    (h2 : i < (ggml_cann_clamp n).length) :
    ((ggml_cann_clamp n).get ⟨i, h2⟩ =
      max (min (n.src.get ⟨i, h⟩) n.maxVal) n.minVal) ∧
    ggml_cann_clamp exClampNode = [0, 1/2, 1] := by
  constructor
  · simp [ggml_cann_clamp]
  · show List.map _ _ = _
    norm_num [exClampNode, min_def, max_def]

/-- Witness for C7 at index 0 of the concrete clamp scenario. -/
theorem clamp_correct_witness :
    0 < exClampNode.src.length ∧ 0 < (ggml_cann_clamp exClampNode).length ∧
    ((ggml_cann_clamp exClampNode).get ⟨0, by simp [ggml_cann_clamp, exClampNode]⟩ =
      max (min (exClampNode.src.get ⟨0, by simp [exClampNode]⟩) exClampNode.maxVal)
        exClampNode.minVal) :=
  ⟨by simp [exClampNode], by simp [ggml_cann_clamp, exClampNode],
   (clamp_correct exClampNode 0 (by simp [exClampNode])
     (by simp [ggml_cann_clamp, exClampNode])).1⟩

/-- Claim C8: the unary dispatch instantiated with a pure elementwise
operator is deterministic — identical input descriptor contents give
identical output contents — and invoking it twice in a row (with
destination distinct from source, so the second invocation sees the
identical input) leaves the same output as one invocation. -/
theorem unary_idempotent (f : ℚ → ℚ) (dst : UnaryNodeVal) :
    (∀ st st2 : Nat → List ℚ, st dst.src0 = st2 dst.src0 →
      ggml_cann_unary_op_val f dst st dst.id =
        ggml_cann_unary_op_val f dst st2 dst.id) ∧
    (∀ st : Nat → List ℚ, dst.id ≠ dst.src0 →
      ggml_cann_unary_op_val f dst (ggml_cann_unary_op_val f dst st) dst.id =
        ggml_cann_unary_op_val f dst st dst.id) := by
  constructor
  · intro st st2 h
    simp [ggml_cann_unary_op_val, h]
  · intro st h
    simp [ggml_cann_unary_op_val, Function.update_noteq (Ne.symm h)]

/-- Witness for C8: double application of negation on a concrete
store. -/
theorem unary_idempotent_witness :
    exUnaryNode.id ≠ exUnaryNode.src0 ∧
    ggml_cann_unary_op_val (fun x => -x) exUnaryNode
        (ggml_cann_unary_op_val (fun x => -x) exUnaryNode exUnaryStore)
        exUnaryNode.id =
      ggml_cann_unary_op_val (fun x => -x) exUnaryNode exUnaryStore
        exUnaryNode.id :=
  ⟨by decide,
   (unary_idempotent (fun x => -x) exUnaryNode).2 exUnaryStore (by decide)⟩

/-- Claim C9: each of `aclnn_add`, `aclnn_sub`, `aclnn_mul`,
`aclnn_div` has its destination parameter defaulting to null, and
omitting it performs the operation in place: afterwards the first
operand's storage holds the elementwise result. -/
theorem binary_default_inplace :
    ((∀ s0 s1 : Nat,
        (aclnn_add s0 s1 : (Nat → List ℚ) → Nat → List ℚ) = aclnn_add s0 s1 none) ∧
      ∀ (s0 s1 : Nat) (st : Nat → List ℚ),
        aclnn_add s0 s1 none st s0 = List.zipWith (· + ·) (st s0) (st s1)) ∧
    ((∀ s0 s1 : Nat,
        (aclnn_sub s0 s1 : (Nat → List ℚ) → Nat → List ℚ) = aclnn_sub s0 s1 none) ∧
      ∀ (s0 s1 : Nat) (st : Nat → List ℚ),
        aclnn_sub s0 s1 none st s0 = List.zipWith (· - ·) (st s0) (st s1)) ∧
    ((∀ s0 s1 : Nat,
        (aclnn_mul s0 s1 : (Nat → List ℚ) → Nat → List ℚ) = aclnn_mul s0 s1 none) ∧
      ∀ (s0 s1 : Nat) (st : Nat → List ℚ),
        aclnn_mul s0 s1 none st s0 = List.zipWith (· * ·) (st s0) (st s1)) ∧
    ((∀ s0 s1 : Nat,
        (aclnn_div s0 s1 : (Nat → List ℚ) → Nat → List ℚ) = aclnn_div s0 s1 none) ∧
      ∀ (s0 s1 : Nat) (st : Nat → List ℚ),
        aclnn_div s0 s1 none st s0 = List.zipWith (· / ·) (st s0) (st s1)) :=
  ⟨⟨fun _ _ => rfl, fun s0 s1 st => by simp [aclnn_add, binWithDst]⟩,
   ⟨fun _ _ => rfl, fun s0 s1 st => by simp [aclnn_sub, binWithDst]⟩,
   ⟨fun _ _ => rfl, fun s0 s1 st => by simp [aclnn_mul, binWithDst]⟩,
   ⟨fun _ _ => rfl, fun s0 s1 st => by simp [aclnn_div, binWithDst]⟩⟩

end CannDispatch
